import Mathlib

/-!
Verification of the chatbay-analyzer repository (src/action_handler.py,
src/app.py, src/vision_test.py) against its natural-language specification.

Shallow embedding conventions:
* Python `str` is Lean `String`; character-level operations (`strip`,
  `lower`, slicing, `in`) are modelled on `List Char` (`String.data`),
  which matches CPython code-point semantics for the ASCII data these
  claims exercise.  `str.lower` is `Char.toLower` (ASCII); `str.strip`
  removes the six ASCII whitespace characters Python strips.
* Environment-variable configuration is embedded at its default value
  (the `getenv_*` defaults in the sources), e.g. `MAX_RETRIES = 5`,
  `SLEEP_BETWEEN_BATCHES = 6.0`, `DEFAULT_CONDITION = "preowned"`.
* Network effects (the gallery HTTP fetch, the OpenAI model call, the
  photo-URL liveness probe, eBay price research) are oracles passed in
  as explicit parameters; wall-clock values (schedule timestamps) and
  float formatting are likewise explicit parameters.  All control flow
  around those oracles is translated from the source.
* `time.sleep` durations are collected into a list (ℚ seconds) so that
  retry/backoff behaviour is observable.
-/

namespace Chatbay

/-- The six characters removed by Python `str.strip()` (ASCII range). -/
def isPySpace (c : Char) : Bool :=
  c = ' ' || c = '\t' || c = '\n' || c = '\x0d' || c = '\x0b' || c = '\x0c'

/-- Python `str.strip()` on the code-point list: drop leading and trailing
whitespace. -/
def pyStripL (l : List Char) : List Char :=
  ((l.dropWhile isPySpace).reverse.dropWhile isPySpace).reverse

/-- Python `str.strip()`. -/
def pyStripS (s : String) : String := ⟨pyStripL s.data⟩

/-- Python `str.lower()` (ASCII case folding, which is all the repository's
tables use). -/
def pyLowerS (s : String) : String := ⟨s.data.map Char.toLower⟩

/-- Boolean prefix test on code-point lists. -/
def hasPrefixL : List Char → List Char → Bool
  | [], _ => true
  | _ :: _, [] => false
  | a :: as, b :: bs => a = b && hasPrefixL as bs

/-- Boolean contiguous-substring test: does `needle` occur in `hay`? -/
def hasInfixL (needle : List Char) : List Char → Bool
  | [] => needle.isEmpty
  | b :: bs => hasPrefixL needle (b :: bs) || hasInfixL needle bs

/-- Python `needle in hay` substring test on strings. -/
def pyContains (hay needle : String) : Bool :=
  hasInfixL needle.data hay.data

/-- Python `sep.join(parts)`. -/
def pyJoin (sep : String) : List String → String
  | [] => ""
  | [x] => x
  | x :: y :: rest => x ++ sep ++ pyJoin sep (y :: rest)

/-- Python `s.split(",")` on the code-point list: `"".split(",")` is
`[""]`, and every comma opens a new field. -/
def splitCommaL : List Char → List (List Char)
  | [] => [[]]
  | c :: rest =>
    if c = ',' then [] :: splitCommaL rest
    else
      match splitCommaL rest with
      | [] => [[c]]
      | w :: ws => (c :: w) :: ws

/-- Python `s.split(",")`. -/
def pySplitComma (s : String) : List String :=
  (splitCommaL s.data).map (fun l => ⟨l⟩)

-- ──────────────────────────────────────────────────────────────
-- src/action_handler.py — configuration constants (env defaults)
-- ──────────────────────────────────────────────────────────────

/-- `DEFAULT_CONDITION = getenv_str("DEFAULT_CONDITION", "preowned").lower()`
at its default. -/
def DEFAULT_CONDITION : String := "preowned"

/-- `CHUNK_SIZE = getenv_int("BATCH_LIMIT", 3)` at its default. -/
def CHUNK_SIZE : ℕ := 3

/-- `SLEEP_BETWEEN_BATCHES = getenv_float("BATCH_SLEEP", 6.0)` at its
default, as an exact rational. -/
def SLEEP_BETWEEN_BATCHES : ℚ := 6

/-- `MAX_RETRIES = getenv_int("MAX_RETRIES", 5)` at its default. -/
def MAX_RETRIES : ℕ := 5

-- ──────────────────────────────────────────────────────────────
-- src/action_handler.py — category mapping
-- ──────────────────────────────────────────────────────────────

/-- `CATEGORY_MAP` of action_handler.py, in insertion (iteration) order. -/
def CATEGORY_MAP : List (String × String) :=
  [("t-shirt", "15687"), ("shirt", "15687"), ("sweatshirt", "155226"), ("hoodie", "155226"),
   ("jacket", "57988"), ("pants", "57989"), ("jeans", "11483"), ("shorts", "15690"),
   ("underwear", "11507"), ("lingerie", "11514"), ("hat", "163571"), ("cap", "163571"),
   ("bag", "169291"), ("tote", "169291"), ("patch", "156521"), ("sticker", "165326"),
   ("button", "10960"), ("magazine", "280"), ("book", "261186"), ("poster", "140"),
   ("tool", "631"), ("lamp", "112581"), ("decor", "10033"), ("wallet", "45258")]

/-- `match_category_id` of action_handler.py: empty text defaults, otherwise
the first map entry whose key is a substring of the lowered text wins. -/
def match_category_id (text : String) : String :=
  if text = "" then "15687"
  else
    match CATEGORY_MAP.find? (fun p => pyContains (pyLowerS text) p.1) with
    | some p => p.2
    | none => "15687"

-- ──────────────────────────────────────────────────────────────
-- src/action_handler.py — condition helpers
-- ──────────────────────────────────────────────────────────────

/-- `CONDITION_ID_MAP = {"new": 1000, "preowned": 3000, "parts": 7000}`. -/
def CONDITION_ID_MAP : List (String × ℕ) :=
  [("new", 1000), ("preowned", 3000), ("parts", 7000)]

/-- The intermediate `v.strip().lower()` of `normalize_condition`. -/
def condKey (v : String) : String := pyLowerS (pyStripS v)

/-- `normalize_condition` of action_handler.py, line for line
(`condKey v` is the reassigned local `v = v.strip().lower()`). -/
def normalize_condition (v : String) : String :=
  if v = "" then DEFAULT_CONDITION
  else if condKey v = "new" ∨ condKey v = "preowned" ∨ condKey v = "parts" then condKey v
  else if condKey v = "used" ∨ condKey v = "vintage" ∨ condKey v = "worn" then "preowned"
  else if condKey v = "nwt" ∨ condKey v = "nos" ∨ condKey v = "deadstock" then "new"
  else if pyContains (condKey v) "part" then "parts"
  else DEFAULT_CONDITION

-- ──────────────────────────────────────────────────────────────
-- src/action_handler.py — utilities
-- ──────────────────────────────────────────────────────────────

/-- The fixed fallback of `clean_price`. -/
def PRICE_FALLBACK : String := "34.99"

/-- The character pipeline of `clean_price`: remove `$`, keep the part
before the first hyphen, strip whitespace, keep digits and the dot. -/
def cleanPriceCore (raw : List Char) : List Char :=
  (pyStripL ((raw.filter (fun c => c ≠ '$')).takeWhile (fun c => c ≠ '-'))).filter
    (fun c => c.isDigit || c = '.')

/-- `clean_price` of action_handler.py: empty input and an empty filtered
result both yield the fallback `"34.99"`. -/
def clean_price (raw : String) : String :=
  if raw = "" then PRICE_FALLBACK
  else if cleanPriceCore raw.data = [] then PRICE_FALLBACK
  else ⟨cleanPriceCore raw.data⟩

/-- `limit_len` of action_handler.py: `(s or "")[:n]`. -/
def limit_len (s : String) (n : ℕ) : String := ⟨s.data.take n⟩

/-- `build_title` of action_handler.py: keep the truthy (non-empty) parts,
space-join, strip, cut to 79 characters. -/
def build_title (brand title_raw size color : String) : String :=
  let parts := [brand, title_raw, size, color].filter (fun p => p ≠ "")
  limit_len (pyStripS (pyJoin " " parts)) 79

-- ──────────────────────────────────────────────────────────────
-- src/action_handler.py — GPT call helper with rate-limit retry
-- ──────────────────────────────────────────────────────────────

/-- Parsed view of the exception's rate-limit headers: the two values the
code reads, `x-ratelimit-reset-requests` and `x-ratelimit-reset-tokens`,
each `some q` when the header is present and parses as a float (`q` its
exact value) and `none` otherwise.  `none` at the outer level is a missing
or empty header mapping. -/
abbrev Headers := Option (Option ℚ × Option ℚ)

/-- `_wait_from_headers` of action_handler.py: prefer a reset header value
(floored at 2.0, plus `attempt * 1.5`), else the fallback formula
`max(SLEEP_BETWEEN_BATCHES, 3.0) + attempt * 2`. -/
def wait_from_headers (headers : Headers) (attempt : ℕ) : ℚ :=
  match headers with
  | none => max SLEEP_BETWEEN_BATCHES 3 + attempt * 2
  | some (resetRequests, resetTokens) =>
    match resetRequests with
    | some base => max base 2 + attempt * (3 / 2)
    | none =>
      match resetTokens with
      | some base => max base 2 + attempt * (3 / 2)
      | none => max SLEEP_BETWEEN_BATCHES 3 + attempt * 2

/-- Outcome of one `client.chat.completions.create` attempt, as classified
by `call_gpt_sync`'s exception-message tests: success (with the reply's
possibly-null `message.content`), an error whose string contains
"429"/"Rate limit"/"tokens per min", an error whose string contains
"502"/"500"/"timeout", or any other (terminal) error. -/
inductive CallOutcome
  | success (content : Option String)
  | rateLimited (headers : Headers)
  | serverError
  | terminal
deriving DecidableEq

/-- The retry loop of `call_gpt_sync` (`for attempt in range(1,
MAX_RETRIES + 1)`), with the remote service behaviour supplied as the
per-attempt oracle `outcome`.  Returns the successful reply's content
(`none` when the call failed terminally or attempts were exhausted)
together with the list of `time.sleep` durations performed, in order. -/
def callGptAttempts (outcome : ℕ → CallOutcome) :
    ℕ → ℕ → Option (Option String) × List ℚ
  | _, 0 => (none, [])
  | attempt, fuel + 1 =>
    match outcome attempt with
    | .success content => (some content, [])
    | .rateLimited h =>
      let w := wait_from_headers h attempt
      let r := callGptAttempts outcome (attempt + 1) fuel
      (r.1, w :: r.2)
    | .serverError =>
      let w : ℚ := 2 * attempt
      let r := callGptAttempts outcome (attempt + 1) fuel
      (r.1, w :: r.2)
    | .terminal => (none, [])

/-- `call_gpt_sync` of action_handler.py: attempts run from 1 to
`MAX_RETRIES`; a rate-limit error sleeps `_wait_from_headers` and retries,
a 5xx/timeout error sleeps `2 * attempt` and retries, any other error
returns `None` at once, and exhausting the loop returns `None`. -/
def call_gpt_sync (outcome : ℕ → CallOutcome) : Option (Option String) × List ℚ :=
  callGptAttempts outcome 1 MAX_RETRIES

-- ──────────────────────────────────────────────────────────────
-- src/action_handler.py — analyze_gallery (sync path; the async path is
-- disabled at the default configuration ASYNC_CONCURRENCY = 1)
-- ──────────────────────────────────────────────────────────────

/-- One gallery group: `{"photo_urls": ...}` (`none` models a missing
key, read with `g.get("photo_urls", "")`). -/
structure Group where
  photo_urls : Option String
deriving DecidableEq

/-- `[u.strip() for u in str(g.get("photo_urls", "")).split(",") if u.strip()]`. -/
def parsePhotos (s : String) : List String :=
  ((pySplitComma s).map pyStripS).filter (fun u => u ≠ "")

/-- The JSON-dict view of a parsed model reply: the fields the row builder
reads with `a.get(...)`, each `none` when the key is absent (for
`photos`, also when its value is falsy). -/
structure Analysis where
  title : Option String := none
  description : Option String := none
  category : Option String := none
  price_estimate : Option String := none
  brand : Option String := none
  color : Option String := none
  material : Option String := none
  size : Option String := none
  features : Option String := none
  pattern : Option String := none
  photos : Option (List String) := none
deriving DecidableEq

/-- The empty dict `{}`. -/
def emptyAnalysis : Analysis := {}

/-- One entry of the `results` list built by `analyze_gallery`:
a parsed dict (with `parsed["photos"] = photos` applied), the
`{"group": idx, "raw": raw, "photos": photos}` fallback when the reply is
not JSON-object-shaped, or the `{"group": idx, "error": "Failed after
retries", "photos": photos}` record when `call_gpt_sync` returned `None`. -/
inductive AnalysisRecord
  | parsed (d : Analysis)
  | rawFallback (group : ℕ) (raw : String) (photos : List String)
  | failed (group : ℕ) (photos : List String)
deriving DecidableEq

/-- External behaviour of the analyze pipeline: the model-call outcome per
(group index, attempt), and `json.loads` plus the `isinstance(parsed,
dict)` check (`none` = parse error or non-dict value), plus the
`current_gmt_schedule()` clock reading used by the row builder. -/
structure AhEnv where
  call : ℕ → ℕ → CallOutcome
  jsonLoads : String → Option Analysis
  sched : String

/-- The per-group body of the sync loop: call the model, then either
record the failure, or parse the reply (setting `parsed["photos"]`). -/
def processOne (env : AhEnv) (idx : ℕ) (photos : List String) : AnalysisRecord :=
  match (call_gpt_sync (env.call idx)).1 with
  | none => .failed idx photos
  | some content =>
    let raw := pyStripS (content.getD "")
    match env.jsonLoads raw with
    | some d => .parsed { d with photos := some photos }
    | none => .rawFallback idx raw photos

/-- The sync path of `analyze_gallery`: the batch loop
`for i in range(0, total, CHUNK_SIZE)` with inner
`for j, g in enumerate(batch, start=1)` visits the groups in order with
global index `idx = i + j`; flattened here to one pass carrying that
index.  A group whose parsed photo list is empty is skipped (`continue`)
without appending a result; sleeps between items/batches are elided. -/
def syncLoop (env : AhEnv) : ℕ → List Group → List AnalysisRecord
  | _, [] => []
  | idx, g :: rest =>
    let photos := parsePhotos (g.photo_urls.getD "")
    if photos = [] then syncLoop env (idx + 1) rest
    else processOne env idx photos :: syncLoop env (idx + 1) rest

/-- Result of `requests.get(gallery_url)`: the HTTP status, and the body's
JSON: `none` when `r.json()` raises (malformed body), `some none` when it
parses to a falsy value or a dict without a `groups` key (so
`(r.json() or {}).get("groups", [])` is `[]`), `some (some gs)` when the
`groups` array is `gs`. -/
structure Fetch where
  status : ℕ
  json : Option (Option (List Group))
deriving DecidableEq

/-- The `groups` value extracted by `analyze_gallery`. -/
def Fetch.groups (f : Fetch) : List Group :=
  match f.json with
  | none => []
  | some none => []
  | some (some gs) => gs

/-- Response bodies produced by the routes modelled here. -/
inductive RespBody
  | galleryFetchFailed (upstream : ℕ)
  | noGroupsFound
  | traceback
  | results (rs : List AnalysisRecord)
  | csvFile (rows : List (List (String × String)))
  | galleryJson (groups : List Group)
  | csvText (rows : List (List String))
  | exportJson (rows : List (List String))
  | exportFailed
deriving DecidableEq

/-- An HTTP response: status code and body. -/
structure HttpResp where
  status : ℕ
  body : RespBody
deriving DecidableEq

/-- `analyze_gallery` of action_handler.py (sync path): non-200 fetch →
`{"error": "Gallery fetch failed", "status": r.status_code}` with the
upstream status; `r.json()` raising → caught by the route's
`except` → 500 traceback body; empty/absent `groups` → 404; otherwise 200
with the accumulated results. -/
def ah_analyze_gallery (env : AhEnv) (f : Fetch) : HttpResp :=
  if f.status ≠ 200 then ⟨f.status, .galleryFetchFailed f.status⟩
  else
    match f.json with
    | none => ⟨500, .traceback⟩
    | some j =>
      let groups := (match j with | none => [] | some gs => gs)
      if groups = [] then ⟨404, .noGroupsFound⟩
      else ⟨200, .results (syncLoop env 1 groups)⟩

-- ──────────────────────────────────────────────────────────────
-- src/action_handler.py — CSV builder
-- ──────────────────────────────────────────────────────────────

/-- Python `x or default` on an optional string: `None` and `""` are falsy. -/
def pyOrS (o : Option String) (d : String) : String :=
  match o with
  | none => d
  | some s => if s = "" then d else s

/-- Python `x or "—"` used inside the description template. -/
def orDash (s : String) : String := if s = "" then "—" else s

/-- Remaining action_handler.py marketplace defaults (env defaults). -/
def DEFAULT_LOCATION : String := "Middletown, CT, USA"

/-- `EBAY_SHIP_PROFILE` default of action_handler.py. -/
def DEFAULT_SHIP_PROFILE : String := "7.99 FLAT"

/-- `EBAY_RET_PROFILE` default. -/
def DEFAULT_RET_PROFILE : String := "No returns accepted"

/-- `EBAY_PAY_PROFILE` default. -/
def DEFAULT_PAY_PROFILE : String := "eBay Payments"

/-- `photos[:max(1, min(12, photos_per_item))]` of `ebay_row_from_analysis`. -/
def ah_photo_selection (photos : List String) (photos_per_item : ℤ) : List String :=
  photos.take (Int.toNat (max 1 (min 12 photos_per_item)))

/-- The stripped `desc_html` f-string of `ebay_row_from_analysis`. -/
def ah_desc_html (title desc_raw brand category_text features size material : String) :
    String :=
  "<p><center><h4>" ++ title ++ "</h4></center></p>\n<p>" ++ desc_raw ++
  "</p>\n<ul>\n<li>Brand: " ++ orDash brand ++ "</li>\n<li>Category: " ++
  orDash category_text ++ "</li>\n<li>Features: " ++ orDash features ++
  "</li>\n<li>Size / Material: " ++ orDash size ++ " / " ++ orDash material ++
  "</li>\n</ul>\n<p>Collector note: classic style with enduring appeal.</p>"

/-- `ebay_row_from_analysis` of action_handler.py, as the ordered key/value
pairs of the returned dict.  `sched` stands for the `current_gmt_schedule()`
clock reading, passed explicitly because the clock is external. -/
def ebay_row_from_analysis (a : Analysis) (idx : ℕ) (photos_per_item : ℤ)
    (condition : String) (sched : String) : List (String × String) :=
  let title_raw := pyStripS (pyOrS a.title ("Item " ++ toString idx))
  let desc_raw := pyStripS (pyOrS a.description "Collectible item.")
  let category_text := a.category.getD ""
  let cat_id := match_category_id category_text
  let price := clean_price (a.price_estimate.getD "34.99")
  let brand := pyStripS (pyOrS a.brand "")
  let color := pyStripS (pyOrS a.color "")
  let material := pyStripS (pyOrS a.material "")
  let size := pyStripS (pyOrS a.size "")
  let features := a.features.getD ""
  let pat := a.pattern.getD ""
  let title := build_title brand title_raw size color
  let desc_html := ah_desc_html title desc_raw brand category_text features size material
  let cond_id := (CONDITION_ID_MAP.lookup (normalize_condition condition)).getD 3000
  let photos := (match a.photos with | none => [] | some l => l)
  let photo_urls := pyJoin "," (ah_photo_selection photos photos_per_item)
  [("Action(SiteID=US|Country=US|Currency=USD|Version=1193)", "Add"),
   ("Category ID", cat_id),
   ("Category name", if category_text = "" then "Other" else category_text),
   ("Title", title),
   ("Schedule Time", sched),
   ("Start price", price),
   ("Quantity", "1"),
   ("Item photo URL", photo_urls),
   ("Condition ID", toString cond_id),
   ("Description", desc_html),
   ("Format", "FixedPrice"),
   ("Duration", "GTC"),
   ("Buy It Now price", price),
   ("Immediate pay required", "1"),
   ("Location", DEFAULT_LOCATION),
   ("Shipping profile name", DEFAULT_SHIP_PROFILE),
   ("Return profile name", DEFAULT_RET_PROFILE),
   ("Payment profile name", DEFAULT_PAY_PROFILE),
   ("C:Brand", brand), ("C:Color", color), ("C:Material", material),
   ("C:Size", size), ("C:Pattern", pat), ("C:Features", features),
   ("C:Vintage", "No")]

/-- `FIELDNAMES = list(ebay_row_from_analysis({}, 1, 1, "preowned").keys())`. -/
def FIELDNAMES : List String :=
  (ebay_row_from_analysis emptyAnalysis 1 1 "preowned" "").map Prod.fst

/-- The dict view of a results entry, as consumed by
`ebay_row_from_analysis` via `a.get(...)`: the raw-fallback and failure
dicts expose only their `photos` key to the row builder. -/
def AnalysisRecord.toAnalysis : AnalysisRecord → Analysis
  | .parsed d => d
  | .rawFallback _ _ photos => { emptyAnalysis with photos := some photos }
  | .failed _ photos => { emptyAnalysis with photos := some photos }

/-- `_analyze_then_rows`'s row construction:
`[ebay_row_from_analysis(a, i + 1, photos_per_item, condition) for i, a in
enumerate(data)]`. -/
def rows_from_results (rs : List AnalysisRecord) (photos_per_item : ℤ)
    (condition : String) (sched : String) : List (List (String × String)) :=
  rs.enum.map (fun p => ebay_row_from_analysis p.2.toAnalysis (p.1 + 1)
    photos_per_item condition sched)

/-- `/export_csv` of action_handler.py: normalize the condition argument,
run `_analyze_then_rows` (which GETs `/analyze_gallery` and raises
`RuntimeError` on a non-200 analyzer status, caught by the route's
`except` into a 500 traceback response), then serialize the rows. -/
def ah_export_csv (env : AhEnv) (f : Fetch) (photos_per_item : ℤ)
    (condArg : String) : HttpResp :=
  let condition := normalize_condition condArg
  let resp := ah_analyze_gallery env f
  if resp.status ≠ 200 then ⟨500, .traceback⟩
  else
    match resp.body with
    | .results rs =>
      ⟨200, .csvFile (rows_from_results rs photos_per_item condition env.sched)⟩
    | _ => ⟨500, .traceback⟩

-- ──────────────────────────────────────────────────────────────
-- src/app.py — maps, URL/photo helpers, gallery fetch
-- ──────────────────────────────────────────────────────────────

/-- `CATEGORY_MAP` of app.py, in insertion order. -/
def app_CATEGORY_MAP : List (String × String) :=
  [("panties", "11507"), ("underwear", "11507"), ("lingerie", "11514"),
   ("t-shirt", "15687"), ("shirt", "15687"), ("tee", "15687"),
   ("sweatshirt", "155226"), ("hoodie", "155226"),
   ("jacket", "57988"), ("jeans", "11483"), ("shorts", "15690"), ("pants", "57989"),
   ("bag", "169291"), ("tote", "169291"), ("patch", "156521"), ("button", "10960"),
   ("hat", "163571"), ("cap", "163571"), ("magazine", "280"), ("book", "261186")]

/-- `CONDITION_ID_MAP` of app.py (same table as action_handler.py). -/
def app_CONDITION_ID_MAP : List (String × ℕ) :=
  [("new", 1000), ("preowned", 3000), ("parts", 7000)]

/-- `clamp_title` of app.py: `(t or "").strip()[:79]`. -/
def clamp_title (t : Option String) : String :=
  ⟨(pyStripL (pyOrS t "").data).take 79⟩

/-- `pick_category_id` of app.py: exact lookup of the trimmed, lowered
guess, defaulting to `"15687"`. -/
def pick_category_id (category_guess : Option String) : String :=
  (app_CATEGORY_MAP.lookup (pyLowerS (pyStripS (pyOrS category_guess "")))).getD "15687"

/-- The loop of `collect_item_photos`: sanitize each raw URL (the
sanitizer, which includes the network liveness probe, is the oracle
`sanitize`; `None` means dropped), skip URLs already collected (the
`seen` set always equals the set of elements of `cleaned`), and stop as
soon as `len(cleaned) >= limit` after an append. -/
def collectLoop (sanitize : String → Option String) (limit : ℕ) :
    List String → List String → List String
  | [], cleaned => cleaned
  | raw :: rest, cleaned =>
    match sanitize raw with
    | none => collectLoop sanitize limit rest cleaned
    | some cu =>
      if cu ∈ cleaned then collectLoop sanitize limit rest cleaned
      else
        let cleaned2 := cleaned ++ [cu]
        if limit ≤ cleaned2.length then cleaned2
        else collectLoop sanitize limit rest cleaned2

/-- `collect_item_photos` of app.py with its cap
`limit = max(1, min(12, int(max_photos)))`. -/
def collect_item_photos (sanitize : String → Option String) (urls : List String)
    (max_photos : ℤ) : List String :=
  collectLoop sanitize (Int.toNat (max 1 (min 12 max_photos))) urls []

/-- `pipe_join` of app.py. -/
def pipe_join (urls : List String) : String := pyJoin "|" urls

/-- `fetch_gallery_groups` of app.py: `raise_for_status()` raises on 4xx
and 5xx statuses, malformed JSON raises in `r.json()`, and a non-dict
body has no `groups`; every raise is caught by the bare `except`, which
returns the empty group list instead of failing the request. -/
def app_fetch_gallery_groups (f : Fetch) : List Group :=
  if 400 ≤ f.status then []
  else
    match f.json with
    | none => []
    | some none => []
    | some (some gs) => gs

/-- `/gallery` of app.py: always a 200 JSON envelope around the fetched
groups. -/
def app_gallery_route (f : Fetch) : HttpResp :=
  ⟨200, .galleryJson (app_fetch_gallery_groups f)⟩

-- ──────────────────────────────────────────────────────────────
-- src/app.py — vision analysis, row builder, export routes
-- ──────────────────────────────────────────────────────────────

/-- The JSON keys of an app.py vision reply, each `none` when absent. -/
structure Analyzed where
  title : Option String := none
  category_guess : Option String := none
  brand : Option String := none
  color : Option String := none
  material : Option String := none
  size : Option String := none
  year_or_style : Option String := none
  short_description : Option String := none
deriving DecidableEq

/-- External behaviour of the app.py pipeline: the URL sanitizer (with
its liveness probe), the vision model call (returning the parsed dict;
`analyze_images_with_vision` returns `{}` itself on any error, which the
oracle models by returning the empty record), the eBay sold-price
research, the schedule clock, and Python's `f"{price:.2f}"` float
formatting. -/
structure AppEnv where
  sanitize : String → Option String
  vision : List String → Analyzed
  price : String → String → Option ℚ
  sched : String
  fmt2 : ℚ → String

/-- `analyze_images_with_vision` of app.py: an empty sanitized photo list
short-circuits to `{}` without calling the model. -/
def analyze_images_with_vision (env : AppEnv) (photo_urls : List String) : Analyzed :=
  if photo_urls = [] then {} else env.vision photo_urls

/-- `FULL_HEADERS` of app.py (54 columns). -/
def FULL_HEADERS : List String :=
  ["Action(SiteID=US|Country=US|Currency=USD|Version=1193)",
   "Custom label (SKU)", "Category ID", "Category name", "Title",
   "Relationship", "Relationship details", "Schedule Time", "P:UPC", "P:EPID",
   "Start price", "Quantity", "Item photo URL", "VideoID", "Condition ID",
   "Description", "Format", "Duration", "Buy It Now price",
   "Best Offer Enabled", "Best Offer Auto Accept Price", "Minimum Best Offer Price",
   "Immediate pay required", "Location", "Shipping service 1 option",
   "Shipping service 1 cost", "Shipping service 1 priority", "Shipping service 2 option",
   "Shipping service 2 cost", "Shipping service 2 priority", "Max dispatch time",
   "Returns accepted option", "Returns within option", "Refund option",
   "Return shipping cost paid by", "Shipping profile name", "Return profile name",
   "Payment profile name", "ProductCompliancePolicyID", "Regional ProductCompliancePolicies",
   "C:Style", "C:Brand", "C:Size Type", "C:Color", "C:Department", "C:Size", "C:Type",
   "C:Features", "C:Character", "C:Theme", "C:Material", "C:Fabric Type", "C:Pattern",
   "C:Vintage"]

/-- `build_desc_html` of app.py. -/
def build_desc_html (title desc : String) : String :=
  "<p><center><h4>" ++ title ++ "</h4></center></p><p>" ++ desc ++ "</p>"

/-- app.py ship profile default (`EBAY_SHIP_PROFILE`). -/
def app_DEFAULT_SHIP_PROFILE : String := "ADV FREE 2 DAYS"

/-- `row_from_item` of app.py: the literal 55-entry row list, padded with
empty strings to the header length and truncated back to it (so the
trailing `C:Vintage` entry is cut by `row[:len(FULL_HEADERS)]`). -/
def row_from_item (env : AppEnv) (analyzed : Analyzed) (photos : List String)
    (condition : String) : List String :=
  let title := clamp_title analyzed.title
  let category_id := pick_category_id analyzed.category_guess
  let desc_html := build_desc_html title (analyzed.short_description.getD "")
  let keywords := if title = "" then analyzed.brand.getD "" else title
  let price : ℚ := (env.price keywords category_id).getD (3499 / 100)
  let photo_pipe := pipe_join photos
  let year := pyLowerS (analyzed.year_or_style.getD "")
  let vintage := if pyContains year "90" || pyContains year "y2k" then "Yes" else ""
  let row : List String :=
    ["Add", "", category_id, "", title, "", "", env.sched, "", "",
     env.fmt2 price, "1", photo_pipe, "",
     toString ((app_CONDITION_ID_MAP.lookup condition).getD 3000),
     desc_html, "FixedPrice", "GTC", "", "", "", "", "", DEFAULT_LOCATION,
     "", "", "", "", "", "", "2",
     "", "", "", "", "", app_DEFAULT_SHIP_PROFILE, DEFAULT_RET_PROFILE,
     DEFAULT_PAY_PROFILE, "", "",
     analyzed.year_or_style.getD "", analyzed.brand.getD "", "",
     analyzed.color.getD "", "", analyzed.size.getD "",
     analyzed.category_guess.getD "", "", "", "",
     analyzed.material.getD "", "", "", vintage]
  (row ++ List.replicate (FULL_HEADERS.length - row.length) "").take FULL_HEADERS.length

/-- The names bound at module level in app.py: its `import`/`from`
bindings followed by its top-level definitions.  `base64` is not among
them, so evaluating the name `base64` raises `NameError`. -/
def app_module_globals : List String :=
  ["os", "io", "csv", "json", "time", "math", "datetime", "traceback", "urllib",
   "median", "List", "Dict", "Any", "Optional", "requests", "Flask", "jsonify",
   "send_file", "request", "Response", "send_from_directory", "OpenAI",
   "app", "client", "SESSION", "REQUEST_TIMEOUT",
   "getenv_str", "getenv_int", "getenv_float",
   "DEFAULT_PHOTOS_PER_ITEM", "DEFAULT_CONDITION", "GALLERY_URL",
   "EBAY_UPLOADS_URL", "_default_host", "ALLOWED_HOSTS",
   "DEFAULT_LOCATION", "DEFAULT_SHIP_PROFILE", "DEFAULT_RET_PROFILE",
   "DEFAULT_PAY_PROFILE", "SLEEP_BETWEEN_ITEMS", "MAX_RETRIES", "EBAY_APP_ID",
   "CATEGORY_MAP", "CONDITION_ID_MAP", "ALLOWED_EXTS", "_httpsify",
   "ensure_public", "sanitize_photo_url", "collect_item_photos", "pipe_join",
   "fetch_gallery_groups", "analyze_images_with_vision", "clamp_title",
   "pick_category_id", "fetch_median_sold_price", "FULL_HEADERS",
   "build_desc_html", "schedule_time_next_day_22_gmt", "row_from_item",
   "health", "serve_openapi", "get_gallery", "preview_csv", "export_csv",
   "export_csv_text"]

/-- Name resolution against app.py's module globals. -/
def app_name_bound (n : String) : Bool := app_module_globals.contains n

/-- The CSV rows (header first) built by app.py's export routes. -/
def app_csv_rows (env : AppEnv) (f : Fetch) (condition : String)
    (photos_per_item : ℤ) : List (List String) :=
  let groups := app_fetch_gallery_groups f
  FULL_HEADERS ::
    groups.map (fun g =>
      let photos := collect_item_photos env.sanitize
        (pySplitComma (g.photo_urls.getD "")) photos_per_item
      row_from_item env (analyze_images_with_vision env photos) photos condition)

/-- `/export_csv` of app.py: after serializing the CSV, the success path
evaluates `base64.b64encode(...)`; if (and only if) the name `base64`
resolves does the route return the inline JSON success payload, otherwise
the `NameError` is caught and the route answers
`({"error": "export failed"}, 500)`. -/
def app_export_csv (env : AppEnv) (f : Fetch) (condArg : String)
    (photos_per_item : ℤ) : HttpResp :=
  let condition := pyLowerS condArg
  let rows := app_csv_rows env f condition photos_per_item
  if app_name_bound "base64" then ⟨200, .exportJson rows⟩
  else ⟨500, .exportFailed⟩

/-- `/export_csv_text` of app.py: always answers 200 with the CSV text
inline (its loop and rows are those of `/export_csv`). -/
def app_export_csv_text (env : AppEnv) (f : Fetch) (condArg : String)
    (photos_per_item : ℤ) : HttpResp :=
  ⟨200, .csvText (app_csv_rows env f (pyLowerS condArg) photos_per_item)⟩

-- ──────────────────────────────────────────────────────────────
-- src/vision_test.py — CSV builder
-- ──────────────────────────────────────────────────────────────

/-- The keys of an analyzed item that `build_csv_bytes` reads. -/
structure VtItem where
  category_id : Option String := none
  title : Option String := none
  condition : Option String := none
  photos : Option (List String) := none
deriving DecidableEq

/-- The header row of `build_csv_bytes`. -/
def vt_headers : List String :=
  ["Action(SiteID=US|Country=US|Currency=USD|Version=1193)",
   "Custom label (SKU)", "Category ID", "Category name", "Title",
   "Condition ID", "Item photo URL", "Description"]

/-- One data row of `build_csv_bytes` in vision_test.py.  The condition
cell is the Python expression
`1000 if item.get("condition", "") == "new" else 3000` (an int, shown
here already stringified as the `csv` writer emits it); `dumps` stands
for `json.dumps(item, ensure_ascii=False)`. -/
def vt_row (dumps : VtItem → String) (item : VtItem) : List String :=
  ["Add",
   "",
   item.category_id.getD "",
   "",
   item.title.getD "",
   toString (if item.condition.getD "" = "new" then (1000 : ℕ) else 3000),
   pyJoin "," (item.photos.getD []),
   dumps item]

-- ──────────────────────────────────────────────────────────────
-- Claim-side (specification-worded) definitions
-- ──────────────────────────────────────────────────────────────

/-- Stated from the spec's words for the category contract: the first
taxonomy code in the table whose keyword is a case-insensitive substring
of the input (`none` when no keyword matches). -/
def first_substring_code (table : List (String × String)) (text : String) :
    Option String :=
  (table.find? (fun p => pyContains (pyLowerS text) p.1)).map Prod.snd

/-- Stated from the claim's words for `clean_price`: strip currency
symbols, take the portion before the first hyphen, keep only digits and
the decimal point. -/
def claimPricePipeline (raw : List Char) : List Char :=
  ((raw.filter (fun c => c ≠ '$')).takeWhile (fun c => c ≠ '-')).filter
    (fun c => c.isDigit || c = '.')

/-- Stated from the claim's words: the pipeline result, with the fixed
fallback `"34.99"` when it is empty. -/
def clean_price_spec (raw : String) : String :=
  if claimPricePipeline raw.data = [] then PRICE_FALLBACK
  else ⟨claimPricePipeline raw.data⟩

/-- Stated from the claim's words for `build_title`: the space-joined
concatenation of exactly the non-empty parts, truncated to 79 characters
(the claim's formula, with no whitespace trimming step). -/
def build_title_claim (brand title_raw size color : String) : String :=
  ⟨(pyJoin " " ([brand, title_raw, size, color].filter
      (fun p => p ≠ ""))).data.take 79⟩

-- ──────────────────────────────────────────────────────────────
-- Helper lemmas
-- ──────────────────────────────────────────────────────────────

theorem filter_dropWhile_eq (p q : Char → Bool) (h : ∀ c, q c = true → p c = false) :
    ∀ l : List Char, (l.dropWhile q).filter p = l.filter p := by
  intro l
  induction l with
  | nil => rfl
  | cons c t ih =>
    rw [List.dropWhile_cons]
    by_cases hq : q c = true
    · rw [if_pos hq, ih, List.filter_cons, h c hq]
      simp
    · rw [if_neg hq]

theorem filter_pyStripL (p : Char → Bool) (h : ∀ c, isPySpace c = true → p c = false)
    (l : List Char) : (pyStripL l).filter p = l.filter p := by
  unfold pyStripL
  rw [List.filter_reverse, filter_dropWhile_eq p isPySpace h,
      List.filter_reverse, filter_dropWhile_eq p isPySpace h,
      List.reverse_reverse]

theorem isPySpace_not_digit_dot :
    ∀ c, isPySpace c = true → (c.isDigit || c = '.') = false := by
  intro c h
  simp only [isPySpace, Bool.or_eq_true, decide_eq_true_eq] at h
  obtain ((((rfl | rfl) | rfl) | rfl) | rfl) | rfl := h <;> rfl

-- ──────────────────────────────────────────────────────────────
-- C4
-- ──────────────────────────────────────────────────────────────

/-- C4: in the app.py revision, every `/export_csv` request that reaches
CSV serialization answers the 500 `{"error": "export failed"}` JSON
rather than the success payload, because the success path evaluates the
name `base64`, which is bound nowhere in the module. -/
theorem C4_app_export_csv_unreachable_success :
    (∀ (env : AppEnv) (f : Fetch) (condArg : String) (ppi : ℤ),
        app_export_csv env f condArg ppi = ⟨500, .exportFailed⟩) ∧
    app_name_bound "base64" = false := by
  have hb : app_name_bound "base64" = false := by decide
  exact ⟨fun env f condArg ppi => by simp [app_export_csv, hb], hb⟩

-- ──────────────────────────────────────────────────────────────
-- C5
-- ──────────────────────────────────────────────────────────────

/-- C5 counterexample: vision_test.py's `build_csv_bytes` writes
Condition ID 3000 — not 7000 — for an item whose condition is `parts`,
refuting the claim that every output row maps `parts` to 7000. -/
theorem C5_counterexample :
    (vt_row (fun _ => "") { condition := some "parts" }).get? 5 = some "3000" ∧
    (3000 : ℕ) ≠ 7000 := by
  exact ⟨rfl, by decide⟩

/-- C5 (amended): the rows of action_handler.py (`ebay_row_from_analysis`)
and app.py (`row_from_item`) map the normalized condition bucket to
`new`→1000, `preowned`→3000, `parts`→7000; vision_test.py's
`build_csv_bytes`, however, writes 1000 only for `new` and 3000 for every
other condition, including `parts`. -/
theorem C5_condition_id_cells :
    (∀ (a : Analysis) (idx : ℕ) (ppi : ℤ) (sched : String),
      (ebay_row_from_analysis a idx ppi "new" sched).get? 8 =
          some ("Condition ID", "1000") ∧
      (ebay_row_from_analysis a idx ppi "preowned" sched).get? 8 =
          some ("Condition ID", "3000") ∧
      (ebay_row_from_analysis a idx ppi "parts" sched).get? 8 =
          some ("Condition ID", "7000")) ∧
    (∀ (env : AppEnv) (an : Analyzed) (photos : List String),
      (row_from_item env an photos "new").get? 14 = some "1000" ∧
      (row_from_item env an photos "preowned").get? 14 = some "3000" ∧
      (row_from_item env an photos "parts").get? 14 = some "7000") ∧
    (∀ (dumps : VtItem → String) (cid t : Option String) (ph : Option (List String)),
      (vt_row dumps ⟨cid, t, some "new", ph⟩).get? 5 = some "1000" ∧
      (vt_row dumps ⟨cid, t, some "parts", ph⟩).get? 5 = some "3000" ∧
      (vt_row dumps ⟨cid, t, some "preowned", ph⟩).get? 5 = some "3000") := by
  refine ⟨fun a idx ppi sched => ⟨?_, ?_, ?_⟩,
          fun env an photos => ⟨?_, ?_, ?_⟩,
          fun dumps cid t ph => ⟨?_, ?_, ?_⟩⟩ <;>
    first
      | rfl
      | (simp [vt_row]; rfl)

-- ──────────────────────────────────────────────────────────────
-- C8
-- ──────────────────────────────────────────────────────────────

/-- C8: `clean_price` implements exactly the claimed pipeline — strip the
currency symbol, take the portion before the first hyphen, keep only
digits and the decimal point, falling back to `"34.99"` when the result
is empty — and in particular maps `"$20-$35"` to `"20"` and empty or
symbol-only inputs to `"34.99"`. -/
theorem C8_clean_price_pipeline :
    (∀ raw : String, clean_price raw = clean_price_spec raw) ∧
    clean_price "$20-$35" = "20" ∧
    clean_price "$20-30" = "20" ∧
    clean_price "" = "34.99" ∧
    clean_price "$" = "34.99" := by
  refine ⟨fun raw => ?_, by decide, by decide, by decide, by decide⟩
  unfold clean_price clean_price_spec cleanPriceCore claimPricePipeline
  rw [filter_pyStripL _ isPySpace_not_digit_dot]
  by_cases hr : raw = ""
  · subst hr; rfl
  · simp [hr]

-- ──────────────────────────────────────────────────────────────
-- C6
-- ──────────────────────────────────────────────────────────────

/-- C6 counterexample: the claim says inputs containing the substring
`"repair"` normalize to `parts`, but `normalize_condition` only tests for
`"part"`; `"Needs Repair"` normalizes to the default `"preowned"`. -/
theorem C6_counterexample :
    normalize_condition "Needs Repair" = "preowned" ∧
    pyContains (condKey "Needs Repair") "repair" = true ∧
    ("preowned" : String) ≠ "parts" := by
  refine ⟨by decide, by decide, by decide⟩

/-- C6 (amended): `normalize_condition` returns the trimmed, lowercased
input when that is one of the canonical buckets; maps the synonym sets
{used, vintage, worn}→`preowned` and {nwt, nos, deadstock}→`new`; returns
`parts` when the key (outside those sets) contains the substring `"part"`
(the claimed `"repair"` test does not exist in the code); and returns the
configured default for every other input, including the empty string. -/
theorem C6_normalize_condition_cases (v : String) :
    ((condKey v = "new" ∨ condKey v = "preowned" ∨ condKey v = "parts") →
      normalize_condition v = condKey v) ∧
    ((condKey v = "used" ∨ condKey v = "vintage" ∨ condKey v = "worn") →
      normalize_condition v = "preowned") ∧
    ((condKey v = "nwt" ∨ condKey v = "nos" ∨ condKey v = "deadstock") →
      normalize_condition v = "new") ∧
    (¬ (condKey v = "new" ∨ condKey v = "preowned" ∨ condKey v = "parts") →
     ¬ (condKey v = "used" ∨ condKey v = "vintage" ∨ condKey v = "worn") →
     ¬ (condKey v = "nwt" ∨ condKey v = "nos" ∨ condKey v = "deadstock") →
      pyContains (condKey v) "part" = true →
      normalize_condition v = "parts") ∧
    (¬ (condKey v = "new" ∨ condKey v = "preowned" ∨ condKey v = "parts") →
     ¬ (condKey v = "used" ∨ condKey v = "vintage" ∨ condKey v = "worn") →
     ¬ (condKey v = "nwt" ∨ condKey v = "nos" ∨ condKey v = "deadstock") →
      pyContains (condKey v) "part" = false →
      normalize_condition v = DEFAULT_CONDITION) := by
  by_cases hv : v = ""
  · subst hv; refine ⟨?_, ?_, ?_, ?_, ?_⟩ <;> decide
  · refine ⟨fun h => ?_, fun h => ?_, fun h => ?_,
            fun h1 h2 h3 hp => ?_, fun h1 h2 h3 hp => ?_⟩
    · unfold normalize_condition
      rw [if_neg hv, if_pos h]
    · unfold normalize_condition
      have h1 : ¬ (condKey v = "new" ∨ condKey v = "preowned" ∨ condKey v = "parts") := by
        rcases h with h | h | h <;> rw [h] <;> decide
      rw [if_neg hv, if_neg h1, if_pos h]
    · unfold normalize_condition
      have h1 : ¬ (condKey v = "new" ∨ condKey v = "preowned" ∨ condKey v = "parts") := by
        rcases h with h | h | h <;> rw [h] <;> decide
      have h2 : ¬ (condKey v = "used" ∨ condKey v = "vintage" ∨ condKey v = "worn") := by
        rcases h with h | h | h <;> rw [h] <;> decide
      rw [if_neg hv, if_neg h1, if_neg h2, if_pos h]
    · unfold normalize_condition
      rw [if_neg hv, if_neg h1, if_neg h2, if_neg h3, if_pos hp]
    · unfold normalize_condition
      rw [if_neg hv, if_neg h1, if_neg h2, if_neg h3,
          if_neg (by simp [hp])]

/-- C6 witness: the amended theorem applied at the concrete input
`"For Parts"`, whose key contains `"part"` without being a canonical
bucket or synonym. -/
theorem C6_witness : normalize_condition "For Parts" = "parts" :=
  (C6_normalize_condition_cases "For Parts").2.2.2.1
    (by decide) (by decide) (by decide) (by decide)

-- ──────────────────────────────────────────────────────────────
-- C7
-- ──────────────────────────────────────────────────────────────

/-- C7 counterexample: app.py's `pick_category_id` uses exact key lookup,
not substring matching: for `"wool hat"` the keyword `"hat"` is a
case-insensitive substring with code `163571`, yet the function returns
the default `15687`. -/
theorem C7_counterexample :
    pick_category_id (some "wool hat") = "15687" ∧
    first_substring_code app_CATEGORY_MAP "wool hat" = some "163571" ∧
    ("15687" : String) ≠ "163571" := by
  refine ⟨by decide, by decide, by decide⟩

/-- C7 (amended): action_handler.py's `match_category_id` returns the
first taxonomy code in the table whose keyword is a case-insensitive
substring of the input (default `"15687"` when none matches or the input
is empty), while app.py's `pick_category_id` returns the code under an
exact (trimmed, lowercased) key match, with the same default. -/
theorem C7_category_lookup :
    (∀ text : String, match_category_id text =
        (first_substring_code CATEGORY_MAP text).getD "15687") ∧
    (∀ (g : Option String) (c : String),
        app_CATEGORY_MAP.lookup (pyLowerS (pyStripS (pyOrS g ""))) = some c →
        pick_category_id g = c) ∧
    (∀ g : Option String,
        app_CATEGORY_MAP.lookup (pyLowerS (pyStripS (pyOrS g ""))) = none →
        pick_category_id g = "15687") := by
  refine ⟨fun text => ?_, fun g c h => ?_, fun g h => ?_⟩
  · by_cases ht : text = ""
    · subst ht; decide
    · unfold match_category_id first_substring_code
      rw [if_neg ht]
      cases hfind : CATEGORY_MAP.find? (fun p => pyContains (pyLowerS text) p.1) with
      | none => simp [hfind]
      | some p => simp [hfind]
  · unfold pick_category_id
    rw [h]; rfl
  · unfold pick_category_id
    rw [h]; rfl

/-- C7 witness: the amended theorem applied at concrete inputs — the
substring branch for action_handler.py and an exact-match lookup for
app.py. -/
theorem C7_witness :
    match_category_id "Vintage Trucker Hat" =
        (first_substring_code CATEGORY_MAP "Vintage Trucker Hat").getD "15687" ∧
    pick_category_id (some " Hoodie ") = "155226" :=
  ⟨C7_category_lookup.1 "Vintage Trucker Hat",
   C7_category_lookup.2.1 (some " Hoodie ") "155226" (by decide)⟩

-- ──────────────────────────────────────────────────────────────
-- C9
-- ──────────────────────────────────────────────────────────────

theorem collectLoop_invariant (sanitize : String → Option String) (limit : ℕ) :
    ∀ (rest : List String) (cleaned : List String), cleaned.Nodup →
      cleaned.length < limit →
      (collectLoop sanitize limit rest cleaned).Nodup ∧
      (collectLoop sanitize limit rest cleaned).length ≤ limit := by
  intro rest
  induction rest with
  | nil => exact fun cleaned h1 h2 => ⟨h1, Nat.le_of_lt h2⟩
  | cons raw rest ih =>
    intro cleaned h1 h2
    unfold collectLoop
    cases hs : sanitize raw with
    | none => exact ih cleaned h1 h2
    | some cu =>
      dsimp only
      by_cases hmem : cu ∈ cleaned
      · rw [if_pos hmem]
        exact ih cleaned h1 h2
      · rw [if_neg hmem]
        have hnodup : (cleaned ++ [cu]).Nodup := by
          simp [List.nodup_append, h1, hmem]
        have hlen : (cleaned ++ [cu]).length ≤ limit := by
          simp only [List.length_append, List.length_singleton]
          omega
        by_cases hfull : limit ≤ (cleaned ++ [cu]).length
        · rw [if_pos hfull]
          exact ⟨hnodup, hlen⟩
        · rw [if_neg hfull]
          exact ih (cleaned ++ [cu]) hnodup (by omega)

/-- C9 counterexample: action_handler.py's row builder joins the photo
field by truncation alone — no deduplication — so a record whose photo
list repeats a URL yields a joined field containing that URL twice,
refuting "never contains a duplicate URL" for every joining path. -/
theorem C9_counterexample :
    ah_photo_selection ["u.jpg", "u.jpg"] 4 = ["u.jpg", "u.jpg"] ∧
    ¬ (["u.jpg", "u.jpg"] : List String).Nodup ∧
    (ebay_row_from_analysis { emptyAnalysis with photos := some ["u.jpg", "u.jpg"] }
        1 4 "preowned" "").get? 7 = some ("Item photo URL", "u.jpg,u.jpg") := by
  refine ⟨by decide, by decide, rfl⟩

/-- C9 (amended): the clamp-to-`[1,12]` cap holds on both joining paths —
app.py's `collect_item_photos` (which also never produces a duplicate
URL) and action_handler.py's `ebay_row_from_analysis` photo field — but
the action_handler.py path only truncates and does not deduplicate. -/
theorem C9_photo_cap_and_dedup :
    (∀ (sanitize : String → Option String) (urls : List String) (m : ℤ),
      (collect_item_photos sanitize urls m).Nodup ∧
      (collect_item_photos sanitize urls m).length ≤ Int.toNat (max 1 (min 12 m))) ∧
    (∀ (photos : List String) (n : ℤ),
      (ah_photo_selection photos n).length ≤ Int.toNat (max 1 (min 12 n))) ∧
    (∀ (a : Analysis) (idx : ℕ) (ppi : ℤ) (cond sched : String),
      (ebay_row_from_analysis a idx ppi cond sched).get? 7 =
        some ("Item photo URL",
          pyJoin "," (ah_photo_selection
            (match a.photos with | none => [] | some l => l) ppi))) := by
  refine ⟨fun sanitize urls m => ?_, fun photos n => ?_,
          fun a idx ppi cond sched => rfl⟩
  · have hpos : 0 < Int.toNat (max 1 (min 12 m)) := by
      have h1 : (1 : ℤ) ≤ max 1 (min 12 m) := le_max_left _ _
      omega
    exact collectLoop_invariant sanitize _ urls [] List.nodup_nil hpos
  · calc (ah_photo_selection photos n).length
        ≤ Int.toNat (max 1 (min 12 n)) := by
          unfold ah_photo_selection
          simpa using List.length_take_le _ _

-- ──────────────────────────────────────────────────────────────
-- C10
-- ──────────────────────────────────────────────────────────────

theorem pyStripL_length_le (l : List Char) : (pyStripL l).length ≤ l.length := by
  unfold pyStripL
  calc ((l.dropWhile isPySpace).reverse.dropWhile isPySpace).reverse.length
      = ((l.dropWhile isPySpace).reverse.dropWhile isPySpace).length :=
        List.length_reverse _
    _ ≤ (l.dropWhile isPySpace).reverse.length :=
        (List.dropWhile_sublist _).length_le
    _ = (l.dropWhile isPySpace).length := List.length_reverse _
    _ ≤ l.length := (List.dropWhile_sublist _).length_le

theorem strip_noop_front {l : List Char} (h : pyStripL l = l) :
    l.dropWhile isPySpace = l := by
  have hsub := List.dropWhile_sublist (l := l) isPySpace
  refine hsub.eq_of_length ?_
  have h1 : (pyStripL l).length ≤ (l.dropWhile isPySpace).length := by
    unfold pyStripL
    calc ((l.dropWhile isPySpace).reverse.dropWhile isPySpace).reverse.length
        = ((l.dropWhile isPySpace).reverse.dropWhile isPySpace).length :=
          List.length_reverse _
      _ ≤ (l.dropWhile isPySpace).reverse.length :=
          (List.dropWhile_sublist _).length_le
      _ = (l.dropWhile isPySpace).length := List.length_reverse _
  have h2 := hsub.length_le
  rw [h] at h1
  omega

theorem strip_noop_back {l : List Char} (h : pyStripL l = l) :
    l.reverse.dropWhile isPySpace = l.reverse := by
  have hf := strip_noop_front h
  unfold pyStripL at h
  rw [hf] at h
  have := congrArg List.reverse h
  rwa [List.reverse_reverse] at this

theorem head_not_space {c : Char} {t : List Char}
    (h : (c :: t).dropWhile isPySpace = c :: t) : isPySpace c = false := by
  by_cases hq : isPySpace c = true
  · rw [List.dropWhile_cons, if_pos hq] at h
    have := (List.dropWhile_sublist (l := t) isPySpace).length_le
    rw [h] at this
    simp at this
  · simpa using hq

theorem strip_noop_append {t s : List Char}
    (ht : pyStripL t = t) (hs : pyStripL s = s)
    (htne : t ≠ []) (hsne : s ≠ []) :
    pyStripL (t ++ ' ' :: s) = t ++ ' ' :: s := by
  obtain ⟨c, t', rfl⟩ : ∃ c t', t = c :: t' := by
    cases t with
    | nil => exact absurd rfl htne
    | cons c t' => exact ⟨c, t', rfl⟩
  have hc : isPySpace c = false := head_not_space (strip_noop_front ht)
  obtain ⟨d, s', hds⟩ : ∃ d s', s.reverse = d :: s' := by
    cases hrev : s.reverse with
    | nil => exact absurd (by simpa using congrArg List.reverse hrev) hsne
    | cons d s' => exact ⟨d, s', rfl⟩
  have hd : isPySpace d = false := by
    have := strip_noop_back hs
    rw [hds] at this
    exact head_not_space this
  unfold pyStripL
  have hfront : ((c :: t') ++ ' ' :: s).dropWhile isPySpace = (c :: t') ++ ' ' :: s := by
    rw [List.cons_append, List.dropWhile_cons, if_neg (by simp [hc])]
  rw [hfront]
  have hrev : ((c :: t') ++ ' ' :: s).reverse = d :: (s' ++ ' ' :: (t'.reverse ++ [c])) := by
    rw [List.reverse_append, List.reverse_cons]
    simp [hds]
  rw [hrev, List.dropWhile_cons, if_neg (by simp [hd]), ← hrev, List.reverse_reverse]

/-- C10 counterexample: the claim's formula — space-join the non-empty
parts, then truncate — is not what `build_title` computes: the code also
strips the joined string, so for the raw title `"T "` (trailing space)
the code produces `"T"` while the claimed formula produces `"T "`. -/
theorem C10_counterexample :
    build_title "" "T " "" "" = "T" ∧
    build_title_claim "" "T " "" "" = "T " ∧
    ("T" : String) ≠ "T " := by
  refine ⟨by decide, by decide, by decide⟩

/-- Stated from the amended claim's words: space-join exactly the
non-empty parts, trim surrounding whitespace, truncate to 79 characters. -/
def build_title_amended (brand title_raw size color : String) : String :=
  ⟨(pyStripL (pyJoin " " ([brand, title_raw, size, color].filter
      (fun p => p ≠ ""))).data).take 79⟩

/-- C10 (amended): `build_title` equals the claimed join-of-non-empty-parts
formula with a whitespace trim before the 79-character truncation; the
result never exceeds 79 characters (likewise app.py's `clamp_title`),
and omitting `brand` and `color` inserts no extra whitespace: for
non-empty, already-trimmed `title_raw` and `size` the result is exactly
`title_raw ++ " " ++ size` cut to 79. -/
theorem C10_build_title :
    (∀ b t s c : String, build_title b t s c = build_title_amended b t s c) ∧
    (∀ b t s c : String, (build_title b t s c).length ≤ 79) ∧
    (∀ t s : String, t ≠ "" → s ≠ "" → pyStripS t = t → pyStripS s = s →
        build_title "" t s "" = limit_len (t ++ " " ++ s) 79) ∧
    (∀ t : Option String, (clamp_title t).length ≤ 79) := by
  refine ⟨fun b t s c => rfl, fun b t s c => ?_, fun t s ht hs hst hss => ?_, fun t => ?_⟩
  · show ((pyStripS (pyJoin " " _)).data.take 79).length ≤ 79
    simpa using List.length_take_le _ _
  · have hfilter : [("" : String), t, s, ""].filter (fun p => p ≠ "") = [t, s] := by
      simp [List.filter, ht, hs]
    unfold build_title
    rw [hfilter]
    show limit_len (pyStripS (pyJoin " " [t, s])) 79 = limit_len (t ++ " " ++ s) 79
    have hjoin : pyJoin " " [t, s] = t ++ " " ++ s := rfl
    rw [hjoin]
    have htd : pyStripL t.data = t.data := congrArg String.data hst
    have hsd : pyStripL s.data = s.data := congrArg String.data hss
    have htne : t.data ≠ [] := by
      intro hnil
      apply ht
      cases t with
      | mk d => simp only [String.data] at hnil; subst hnil; rfl
    have hsne : s.data ≠ [] := by
      intro hnil
      apply hs
      cases s with
      | mk d => simp only [String.data] at hnil; subst hnil; rfl
    have hdata : (t ++ " " ++ s).data = t.data ++ ' ' :: s.data := by
      simp [String.data_append]
    unfold limit_len pyStripS
    congr 1
    rw [hdata, strip_noop_append htd hsd htne hsne]
  · show ((pyStripL (pyOrS t "").data).take 79).length ≤ 79
    simpa using List.length_take_le _ _

/-- C10 witness: the amended theorem's whitespace-free-omission clause
applied at the concrete trimmed inputs `"Big Logo Tee"`, `"XL"`. -/
theorem C10_witness :
    build_title "" "Big Logo Tee" "XL" "" = limit_len ("Big Logo Tee" ++ " " ++ "XL") 79 :=
  C10_build_title.2.2.1 "Big Logo Tee" "XL" (by decide) (by decide) (by decide) (by decide)

-- ──────────────────────────────────────────────────────────────
-- C3
-- ──────────────────────────────────────────────────────────────

/-- A model-service behaviour that rate-limits attempts 1 and 2 and
succeeds on attempt 3, where the first error carries a reset header of
50 seconds and the second carries none. -/
def c3Oracle : ℕ → CallOutcome := fun a =>
  if a = 1 then .rateLimited (some (some 50, none))
  else if a = 2 then .rateLimited none
  else .success (some "ok")

/-- C3 counterexample: with a rate-limit error on attempts 1 and 2 and
success on attempt 3, `call_gpt_sync` does return the success and sleep
exactly twice — but the wait durations are not always non-decreasing:
when the first error carries a 50-second reset header and the second
carries none, the sleeps are 51.5s then 10s. -/
theorem C3_counterexample :
    c3Oracle 1 = .rateLimited (some (some 50, none)) ∧
    c3Oracle 2 = .rateLimited none ∧
    c3Oracle 3 = .success (some "ok") ∧
    call_gpt_sync c3Oracle = (some (some "ok"), [103 / 2, 10]) ∧
    ¬ ((103 : ℚ) / 2 ≤ 10) := by
  refine ⟨rfl, rfl, rfl, ?_, by norm_num⟩
  simp only [call_gpt_sync, MAX_RETRIES]
  norm_num [c3Oracle, callGptAttempts, wait_from_headers, SLEEP_BETWEEN_BATCHES]

/-- C3 (amended): with `MAX_RETRIES = 5`, a rate-limit error on attempts
1 and 2 followed by success on attempt 3 makes `call_gpt_sync` return the
successful reply after sleeping exactly twice, and those two waits are
non-decreasing whenever the errors supply no reset headers (the fallback
backoff formula grows with the attempt number); an error that is not
rate-limit/5xx/timeout-shaped on the first attempt returns failure
immediately with no retry sleep. -/
theorem C3_retry_behaviour :
    (∀ (outcome : ℕ → CallOutcome) (h1 h2 : Headers) (c : Option String),
      outcome 1 = .rateLimited h1 → outcome 2 = .rateLimited h2 →
      outcome 3 = .success c →
      call_gpt_sync outcome =
        (some c, [wait_from_headers h1 1, wait_from_headers h2 2]) ∧
      (h1 = none → h2 = none →
        wait_from_headers h1 1 ≤ wait_from_headers h2 2)) ∧
    (∀ outcome : ℕ → CallOutcome, outcome 1 = .terminal →
      call_gpt_sync outcome = (none, [])) := by
  constructor
  · intro outcome h1 h2 c ho1 ho2 ho3
    constructor
    · simp [call_gpt_sync, MAX_RETRIES, callGptAttempts, ho1, ho2, ho3]
    · rintro rfl rfl
      norm_num [wait_from_headers, SLEEP_BETWEEN_BATCHES]
  · intro outcome h
    simp [call_gpt_sync, MAX_RETRIES, callGptAttempts, h]

/-- A headerless variant of the C3 scenario: rate-limited on attempts 1
and 2 with no reset headers, success on attempt 3. -/
def c3WitnessOracle : ℕ → CallOutcome := fun a =>
  if a ≤ 2 then .rateLimited none else .success (some "ok")

/-- C3 witness: the amended theorem applied to the headerless scenario —
success returned, exactly two sleeps, waits non-decreasing — plus the
immediate-failure clause applied to an always-terminal service. -/
theorem C3_witness :
    call_gpt_sync c3WitnessOracle =
      (some (some "ok"), [wait_from_headers none 1, wait_from_headers none 2]) ∧
    wait_from_headers none 1 ≤ wait_from_headers none 2 ∧
    call_gpt_sync (fun _ => .terminal) = (none, []) :=
  ⟨(C3_retry_behaviour.1 c3WitnessOracle none none (some "ok") rfl rfl rfl).1,
   (C3_retry_behaviour.1 c3WitnessOracle none none (some "ok") rfl rfl rfl).2 rfl rfl,
   C3_retry_behaviour.2 (fun _ => .terminal) rfl⟩

-- ──────────────────────────────────────────────────────────────
-- C1
-- ──────────────────────────────────────────────────────────────

/-- A closed app.py environment for concrete instances (its fields are
never reached in the cases below). -/
def trivialAppEnv : AppEnv :=
  { sanitize := fun _ => none, vision := fun _ => {},
    price := fun _ _ => none, sched := "", fmt2 := fun _ => "" }

/-- A closed action_handler.py environment for concrete instances. -/
def trivialAhEnv : AhEnv :=
  { call := fun _ _ => .terminal, jsonLoads := fun _ => none, sched := "" }

/-- C1 counterexample: in the app.py revision a failed gallery fetch does
not fail the request at all — `/export_csv_text` on an upstream 503
answers 200 with a header-only CSV instead of a structured error carrying
the upstream status, because `fetch_gallery_groups` swallows the error
into an empty group list. -/
theorem C1_counterexample :
    app_export_csv_text trivialAppEnv ⟨503, some (some [⟨some "a.jpg"⟩])⟩
        "preowned" 4 = ⟨200, .csvText [FULL_HEADERS]⟩ ∧
    app_fetch_gallery_groups ⟨503, some (some [⟨some "a.jpg"⟩])⟩ = [] ∧
    (200 : ℕ) ≠ 503 := by
  refine ⟨rfl, by decide, by decide⟩

/-- C1 (amended): in action_handler.py, `analyze_gallery` fails a non-200
gallery fetch immediately with a structured error carrying the upstream
status, fails malformed JSON with a 500 traceback error (not the upstream
status), and answers 404 on an absent or empty `groups` array — whereupon
`/export_csv` fails with a 500 error and produces no CSV.  In the app.py
revision, every gallery-fetch failure (non-200 status or malformed JSON)
is swallowed by `fetch_gallery_groups` into an empty group list instead
of failing the request. -/
theorem C1_gallery_failure_handling :
    (∀ (env : AhEnv) (f : Fetch), f.status ≠ 200 →
        ah_analyze_gallery env f = ⟨f.status, .galleryFetchFailed f.status⟩) ∧
    (∀ (env : AhEnv) (f : Fetch), f.status = 200 → f.json = none →
        ah_analyze_gallery env f = ⟨500, .traceback⟩) ∧
    (∀ (env : AhEnv) (f : Fetch) (j : Option (List Group)),
        f.status = 200 → f.json = some j → f.groups = [] →
        ah_analyze_gallery env f = ⟨404, .noGroupsFound⟩) ∧
    (∀ (env : AhEnv) (f : Fetch) (ppi : ℤ) (condArg : String),
        (ah_analyze_gallery env f).status ≠ 200 →
        ah_export_csv env f ppi condArg = ⟨500, .traceback⟩) ∧
    (∀ f : Fetch, 400 ≤ f.status ∨ f.json = none →
        app_fetch_gallery_groups f = []) := by
  refine ⟨fun env f h => ?_, fun env f h200 hj => ?_,
          fun env f j h200 hj hg => ?_, fun env f ppi condArg h => ?_,
          fun f h => ?_⟩
  · unfold ah_analyze_gallery
    rw [if_pos h]
  · simp [ah_analyze_gallery, h200, hj]
  · cases j with
    | none => simp [ah_analyze_gallery, h200, hj]
    | some gs =>
      have hgs : gs = [] := by
        have hfg : f.groups = gs := by simp [Fetch.groups, hj]
        rw [hfg] at hg
        exact hg
      subst hgs
      simp [ah_analyze_gallery, h200, hj]
  · simp only [ah_export_csv]
    rw [if_pos h]
  · rcases h with h | h
    · simp [app_fetch_gallery_groups, h]
    · unfold app_fetch_gallery_groups
      rw [h]
      split <;> rfl

/-- C1 witness: the amended theorem applied at concrete fetch results —
upstream 503, malformed JSON, an empty groups array (with the resulting
export failure), and app.py's swallowed upstream 500. -/
theorem C1_witness :
    ah_analyze_gallery trivialAhEnv ⟨503, some (some [⟨some "a.jpg"⟩])⟩ =
      ⟨503, .galleryFetchFailed 503⟩ ∧
    ah_analyze_gallery trivialAhEnv ⟨200, none⟩ = ⟨500, .traceback⟩ ∧
    ah_analyze_gallery trivialAhEnv ⟨200, some none⟩ = ⟨404, .noGroupsFound⟩ ∧
    ah_export_csv trivialAhEnv ⟨200, some none⟩ 4 "preowned" = ⟨500, .traceback⟩ ∧
    app_fetch_gallery_groups ⟨500, some (some [⟨some "a.jpg"⟩])⟩ = [] :=
  ⟨C1_gallery_failure_handling.1 trivialAhEnv _ (by decide),
   C1_gallery_failure_handling.2.1 trivialAhEnv _ rfl rfl,
   C1_gallery_failure_handling.2.2.1 trivialAhEnv _ none rfl rfl (by decide),
   C1_gallery_failure_handling.2.2.2.1 trivialAhEnv _ 4 "preowned" (by decide),
   C1_gallery_failure_handling.2.2.2.2 _ (Or.inl (by decide))⟩

-- ──────────────────────────────────────────────────────────────
-- C2
-- ──────────────────────────────────────────────────────────────

theorem processOne_of_call_failed (env : AhEnv) (idx : ℕ) (photos : List String)
    (h : (call_gpt_sync (env.call idx)).1 = none) :
    processOne env idx photos = .failed idx photos := by
  simp [processOne, h]

theorem syncLoop_length_and_get (env : AhEnv) :
    ∀ (gs : List Group) (start : ℕ),
      (∀ g ∈ gs, parsePhotos (g.photo_urls.getD "") ≠ []) →
      (syncLoop env start gs).length = gs.length ∧
      (∀ i g, gs.get? i = some g →
        (syncLoop env start gs).get? i =
          some (processOne env (start + i) (parsePhotos (g.photo_urls.getD "")))) := by
  intro gs
  induction gs with
  | nil =>
    intro start _
    exact ⟨rfl, fun i g hg => by simp at hg⟩
  | cons g rest ih =>
    intro start h
    have hg : parsePhotos (g.photo_urls.getD "") ≠ [] := h g (List.mem_cons_self g rest)
    have hrest := ih (start + 1) (fun g' hmem => h g' (List.mem_cons_of_mem g hmem))
    unfold syncLoop
    rw [if_neg hg]
    refine ⟨by simp [hrest.1], fun i g' hi => ?_⟩
    cases i with
    | zero =>
      simp only [List.get?_cons_zero, Option.some.injEq] at hi
      subst hi
      simp
    | succ n =>
      simp only [List.get?_cons_succ] at hi ⊢
      rw [hrest.2 n g' hi]
      ring_nf

/-- C2: when the gallery fetch succeeds with a non-empty `groups` array
and every group parses to a non-empty photo list, the sync analyze loop
emits exactly one record per group, a group whose model call returns no
result (a terminal error or exhausted retries) still occupies its
position as the error record `{"group": idx, "error": ...}` instead of
failing the request, and the exported CSV carries exactly one row per
group. -/
theorem C2_per_item_failure_isolation
    (env : AhEnv) (f : Fetch) (groups : List Group) (ppi : ℤ) (condArg : String)
    (hf : f.status = 200) (hj : f.json = some (some groups)) (hne : groups ≠ [])
    (hp : ∀ g ∈ groups, parsePhotos (g.photo_urls.getD "") ≠ []) :
    ah_analyze_gallery env f = ⟨200, .results (syncLoop env 1 groups)⟩ ∧
    (syncLoop env 1 groups).length = groups.length ∧
    (∀ i g, groups.get? i = some g →
        (call_gpt_sync (env.call (1 + i))).1 = none →
        (syncLoop env 1 groups).get? i =
          some (.failed (1 + i) (parsePhotos (g.photo_urls.getD "")))) ∧
    ah_export_csv env f ppi condArg =
      ⟨200, .csvFile (rows_from_results (syncLoop env 1 groups) ppi
          (normalize_condition condArg) env.sched)⟩ ∧
    (rows_from_results (syncLoop env 1 groups) ppi (normalize_condition condArg)
        env.sched).length = groups.length := by
  have hmain := syncLoop_length_and_get env groups 1 hp
  have h1 : ah_analyze_gallery env f = ⟨200, .results (syncLoop env 1 groups)⟩ := by
    simp [ah_analyze_gallery, hf, hj, hne]
  refine ⟨h1, hmain.1, fun i g hi hcall => ?_, ?_, ?_⟩
  · rw [hmain.2 i g hi, processOne_of_call_failed env (1 + i) _ hcall]
  · simp [ah_export_csv, h1]
  · simp [rows_from_results, List.enum_length, hmain.1]

/-- The C2 scenario's environment: the model call for group 2 always
raises a terminal (non-retryable) error, every other group's call
succeeds with a non-JSON reply. -/
def c2Env : AhEnv :=
  { call := fun idx _ => if idx = 2 then .terminal else .success (some "not json"),
    jsonLoads := fun _ => none,
    sched := "" }

/-- Three one-photo gallery groups. -/
def c2Groups : List Group := [⟨some "a.jpg"⟩, ⟨some "b.jpg"⟩, ⟨some "c.jpg"⟩]

/-- C2 witness: the theorem applied to a 3-group gallery whose second
group's model call always throws a non-retryable error — three records,
the second being the error record, and three CSV rows. -/
theorem C2_witness :
    (syncLoop c2Env 1 c2Groups).length = c2Groups.length ∧
    (syncLoop c2Env 1 c2Groups).get? 1 = some (.failed 2 ["b.jpg"]) ∧
    (rows_from_results (syncLoop c2Env 1 c2Groups) 4
        (normalize_condition "preowned") "").length = c2Groups.length := by
  have H := C2_per_item_failure_isolation c2Env ⟨200, some (some c2Groups)⟩
    c2Groups 4 "preowned" rfl rfl (by decide) (by decide)
  refine ⟨H.2.1, ?_, H.2.2.2.2⟩
  have h2 := H.2.2.1 1 ⟨some "b.jpg"⟩ (by decide) (by decide)
  rw [h2]
  decide

end Chatbay
